import Mathlib

/-!
Shallow embedding of the rate-limit / REST / websocket core of the `ba_api`
crate, followed by theorems settling the specification claims.

Conventions of the embedding:
* Rust `u32` values are modelled as `Nat`; where the source performs an
  unchecked `u32` subtraction that can overflow, the wrap-around semantics of a
  release build is modelled explicitly via `u32Sub` (a debug build would panic
  at the same inputs).
* `DateTime<FixedOffset>` values produced by `now0()` (UTC) are modelled as
  milliseconds since the Unix epoch (`Nat`); `chrono`'s `hour()/minute()/second()`
  become explicit arithmetic on that epoch value.
* The `tokio::sync::RwLock` write guard held by each mutating operation makes
  the whole operation one atomic step, so every operation is a pure function
  on the guarded state `RestApiRateLimitsInner`.
-/

namespace BaApi

/-! ### Data model, from `src/types/rate_limit.rs` and `ba_types`
(`ba_types::RateLimit` additionally carries a `count` field, visible in the
construction sites in `src/client/rate_limit.rs`). -/

inductive RateLimitType
  | RequestWeight
  | Orders
  | RawRequests
  deriving DecidableEq, Repr

inductive RateLimitInterVal
  | Second
  | Minute
  | Day
  deriving DecidableEq, Repr

structure RateLimit where
  rate_limit_type : RateLimitType
  interval : RateLimitInterVal
  interval_num : Nat
  limit : Nat
  count : Nat
  deriving DecidableEq, Repr

/-- `2 ^ 32`, the modulus of Rust `u32` arithmetic. -/
def U32MOD : Nat := 4294967296

/-- Wrapping `u32` subtraction: the value of Rust's `a - b` on `u32` in a
release build (a debug build panics when `b > a`; either way the result is
not the mathematical difference once `b > a`). -/
def u32Sub (a b : Nat) : Nat := (a % U32MOD + U32MOD - b % U32MOD) % U32MOD

/-! ### `src/client/rate_limit.rs` -/

/-- Which kind of rate limiting a request is subject to
(`RateLimitParam`, src/client/rate_limit.rs:33-43). -/
inductive RateLimitParam
  | Weight (n : Nat)
  | Order (n : Nat)
  | Both (n : Nat)
  deriving DecidableEq, Repr

/-- One limit dimension (`RestApiRateLimitInfo`): the rule, the remaining
count in the current window, and the instant of the last reset. -/
structure RestApiRateLimitInfo where
  rate_limit : RateLimit
  remain : Nat
  reset_datetime : Nat
  deriving DecidableEq, Repr

/-- `RestApiRateLimitInfo::new` — `now0()` is passed in as `now`. -/
def RestApiRateLimitInfo.new (rate_limit : RateLimit) (now : Nat) :
    RestApiRateLimitInfo :=
  { rate_limit := rate_limit, remain := rate_limit.limit, reset_datetime := now }

/-- `RestApiRateLimitInfo::reset_permits` — `now0()` is passed in as `now`. -/
def RestApiRateLimitInfo.reset_permits (x : RestApiRateLimitInfo) (now : Nat) :
    RestApiRateLimitInfo :=
  { x with remain := x.rate_limit.limit, reset_datetime := now }

/-- The four guarded dimensions (`RestApiRateLimitsInner`). -/
structure RestApiRateLimitsInner where
  weight : RestApiRateLimitInfo
  order_sec10 : RestApiRateLimitInfo
  order_day1 : RestApiRateLimitInfo
  raw_requests : RestApiRateLimitInfo
  deriving DecidableEq, Repr

/-- `impl Default for RestApiRateLimitsInner` — `now0()` is passed in as `now`. -/
def RestApiRateLimitsInner.default (now : Nat) : RestApiRateLimitsInner :=
  { weight := RestApiRateLimitInfo.new
      ⟨RateLimitType.RequestWeight, RateLimitInterVal.Minute, 1, 6000, 0⟩ now,
    order_sec10 := RestApiRateLimitInfo.new
      ⟨RateLimitType.Orders, RateLimitInterVal.Second, 10, 50, 0⟩ now,
    order_day1 := RestApiRateLimitInfo.new
      ⟨RateLimitType.Orders, RateLimitInterVal.Day, 1, 160000, 0⟩ now,
    raw_requests := RestApiRateLimitInfo.new
      ⟨RateLimitType.RawRequests, RateLimitInterVal.Minute, 5, 61000, 0⟩ now }

/-- One pass of the body of `RestApiRateLimits::acquire_permits`
(src/client/rate_limit.rs:187-218) under the write lock: `some` is the state
after the `break` (all decrements applied inside the one critical section),
`none` means the guard failed, the lock is dropped unchanged and the caller
yields and retries. -/
def tryAcquirePermits (limit_param : RateLimitParam)
    (inner : RestApiRateLimitsInner) : Option RestApiRateLimitsInner :=
  let p := match limit_param with
    | RateLimitParam.Weight n => (n, false)
    | RateLimitParam.Order n => (n, true)
    | RateLimitParam.Both n => (n, true)
  let n := p.1
  let order_flag := p.2
  if order_flag then
    if n ≤ inner.weight.remain ∧ 1 ≤ inner.raw_requests.remain ∧
        1 ≤ inner.order_sec10.remain ∧ 1 ≤ inner.order_day1.remain then
      some { inner with
        weight := { inner.weight with remain := inner.weight.remain - n },
        raw_requests :=
          { inner.raw_requests with remain := inner.raw_requests.remain - 1 },
        order_sec10 :=
          { inner.order_sec10 with remain := inner.order_sec10.remain - 1 },
        order_day1 :=
          { inner.order_day1 with remain := inner.order_day1.remain - 1 } }
    else none
  else
    if n ≤ inner.weight.remain ∧ 1 ≤ inner.raw_requests.remain then
      some { inner with
        weight := { inner.weight with remain := inner.weight.remain - n },
        raw_requests :=
          { inner.raw_requests with remain := inner.raw_requests.remain - 1 } }
    else none

/-- The per-dimension update block of `RestApiRateLimits::set_permits`
(src/client/rate_limit.rs:223-275); the source repeats this block verbatim for
`weight`, `order_sec10` and `order_day1`.  Both subtractions are unchecked
`u32` subtractions in the source, hence `u32Sub`. -/
def setPermitsDim (response_date : Nat) (used_opt : Option Nat)
    (info : RestApiRateLimitInfo) : RestApiRateLimitInfo :=
  if info.reset_datetime < response_date then
    match used_opt with
    | some n =>
        let used := max (u32Sub info.rate_limit.limit info.remain) n
        { info with remain := u32Sub info.rate_limit.limit used }
    | none => info
  else info

/-- `RestApiRateLimits::set_permits` after the `Date` header has been parsed
(`response_date` in ms since epoch; a parse failure falls back to `now0()`
before this point).  `raw_requests` is never reconciled. -/
def set_permits (inner : RestApiRateLimitsInner) (response_date : Nat)
    (weight_used order_sec10_used order_day1_used : Option Nat) :
    RestApiRateLimitsInner :=
  { inner with
    weight := setPermitsDim response_date weight_used inner.weight,
    order_sec10 := setPermitsDim response_date order_sec10_used inner.order_sec10,
    order_day1 := setPermitsDim response_date order_day1_used inner.order_day1 }

/-- `chrono`'s `hour()` for a UTC time given in ms since epoch. -/
def hourOf (t : Nat) : Nat := t / 3600000 % 24

/-- `chrono`'s `minute()` for a UTC time given in ms since epoch. -/
def minuteOf (t : Nat) : Nat := t / 60000 % 60

/-- `chrono`'s `second()` for a UTC time given in ms since epoch. -/
def secondOf (t : Nat) : Nat := t / 1000 % 60

/-- `RestApiRateLimits::reset_weight_permits`. -/
def resetWeightPermits (now : Nat) (inner : RestApiRateLimitsInner) :
    RestApiRateLimitsInner :=
  { inner with weight := inner.weight.reset_permits now }

/-- `RestApiRateLimits::reset_order_sec10_permits`. -/
def resetOrderSec10Permits (now : Nat) (inner : RestApiRateLimitsInner) :
    RestApiRateLimitsInner :=
  { inner with order_sec10 := inner.order_sec10.reset_permits now }

/-- `RestApiRateLimits::reset_order_day1_permits`. -/
def resetOrderDay1Permits (now : Nat) (inner : RestApiRateLimitsInner) :
    RestApiRateLimitsInner :=
  { inner with order_day1 := inner.order_day1.reset_permits now }

/-- `RestApiRateLimits::reset_raw_request_permits`. -/
def resetRawRequestPermits (now : Nat) (inner : RestApiRateLimitsInner) :
    RestApiRateLimitsInner :=
  { inner with raw_requests := inner.raw_requests.reset_permits now }

/-- One iteration of the loop body of `RestApiRateLimits::run_tick`
(src/client/rate_limit.rs:280-325) when the ticker fires with `now0() = now`:
the branch cascade with its `continue`s, translated if/else by if/else. -/
def runTickStep (now : Nat) (inner : RestApiRateLimitsInner) :
    RestApiRateLimitsInner :=
  let h := hourOf now
  let m := minuteOf now
  let s := secondOf now
  if s % 10 = 0 then
    if h = 0 ∧ m = 0 ∧ s = 0 then
      resetRawRequestPermits now (resetOrderDay1Permits now
        (resetOrderSec10Permits now (resetWeightPermits now inner)))
    else if m % 5 = 0 ∧ s = 0 then
      resetRawRequestPermits now inner
    else if s = 0 then
      resetWeightPermits now inner
    else
      resetOrderSec10Permits now inner
  else inner

/-! ### Sequences of coordinator operations (for the state invariant) -/

/-- An external call into the coordinator: an `acquire_permits` attempt or a
`set_permits` reconciliation. -/
inductive RateOp
  | acquire (p : RateLimitParam)
  | reconcile (response_date : Nat)
      (weight_used order_sec10_used order_day1_used : Option Nat)
  deriving Repr

/-- Effect of one call on the guarded state.  While `acquire_permits` is
waiting (guard false) it leaves the state untouched, so the observable effect
of a call sequence is the fold of these steps. -/
def applyOp (inner : RestApiRateLimitsInner) : RateOp → RestApiRateLimitsInner
  | RateOp.acquire p => (tryAcquirePermits p inner).getD inner
  | RateOp.reconcile t w s10 d1 => set_permits inner t w s10 d1

def runOps (inner : RestApiRateLimitsInner) (ops : List RateOp) :
    RestApiRateLimitsInner :=
  ops.foldl applyOp inner

/-- A dimension is within bounds: `remain ≤ capacity` (and the capacity is a
`u32`, as it is in the source). -/
def infoOk (x : RestApiRateLimitInfo) : Prop :=
  x.remain ≤ x.rate_limit.limit ∧ x.rate_limit.limit < U32MOD

instance (x : RestApiRateLimitInfo) : Decidable (infoOk x) := by
  unfold infoOk
  exact inferInstance

/-- Every dimension is within bounds. -/
def dimsOk (inner : RestApiRateLimitsInner) : Prop :=
  infoOk inner.weight ∧ infoOk inner.order_sec10 ∧
    infoOk inner.order_day1 ∧ infoOk inner.raw_requests

instance (inner : RestApiRateLimitsInner) : Decidable (dimsOk inner) := by
  unfold dimsOk
  exact inferInstance

/-- A reported used value is no larger than the capacity it is reported
against. -/
def usedOk (cap : Nat) : Option Nat → Prop
  | some n => n ≤ cap
  | none => True

instance (cap : Nat) (o : Option Nat) : Decidable (usedOk cap o) := by
  unfold usedOk
  cases o <;> exact inferInstance

/-- The reported values of a call are within the capacities of `inner`. -/
def opOk (inner : RestApiRateLimitsInner) : RateOp → Prop
  | RateOp.acquire _ => True
  | RateOp.reconcile _ w s10 d1 =>
      usedOk inner.weight.rate_limit.limit w ∧
      usedOk inner.order_sec10.rate_limit.limit s10 ∧
      usedOk inner.order_day1.rate_limit.limit d1

instance (inner : RestApiRateLimitsInner) (op : RateOp) :
    Decidable (opOk inner op) := by
  unfold opOk
  cases op <;> exact inferInstance

/-! ### Lemmas about the coordinator steps -/

theorem u32Sub_of_le {a b : Nat} (hba : b ≤ a) (ha : a < U32MOD) :
    u32Sub a b = a - b := by
  unfold u32Sub U32MOD at *
  rw [Nat.mod_eq_of_lt ha, Nat.mod_eq_of_lt (lt_of_le_of_lt hba ha)]
  omega

theorem setPermitsDim_rate_limit (t : Nat) (u : Option Nat)
    (info : RestApiRateLimitInfo) :
    (setPermitsDim t u info).rate_limit = info.rate_limit := by
  unfold setPermitsDim
  split
  · cases u <;> simp
  · rfl

theorem setPermitsDim_infoOk (t : Nat) (u : Option Nat)
    (info : RestApiRateLimitInfo) (hok : infoOk info)
    (hu : usedOk info.rate_limit.limit u) :
    infoOk (setPermitsDim t u info) := by
  obtain ⟨hrem, hcap⟩ := hok
  unfold setPermitsDim
  split
  · cases u with
    | none => exact ⟨hrem, hcap⟩
    | some n =>
        simp only [usedOk] at hu
        have h1 : u32Sub info.rate_limit.limit info.remain =
            info.rate_limit.limit - info.remain := u32Sub_of_le hrem hcap
        refine ⟨?_, hcap⟩
        simp only [h1]
        have hused : max (info.rate_limit.limit - info.remain) n ≤
            info.rate_limit.limit := by omega
        rw [u32Sub_of_le hused hcap]
        omega
  · exact ⟨hrem, hcap⟩

theorem tryAcquirePermits_Weight_eq (n : Nat) (inner : RestApiRateLimitsInner) :
    tryAcquirePermits (RateLimitParam.Weight n) inner =
      (if n ≤ inner.weight.remain ∧ 1 ≤ inner.raw_requests.remain then
        some { inner with
          weight := { inner.weight with remain := inner.weight.remain - n },
          raw_requests :=
            { inner.raw_requests with remain := inner.raw_requests.remain - 1 } }
      else none) := rfl

theorem tryAcquirePermits_Both_eq (n : Nat) (inner : RestApiRateLimitsInner) :
    tryAcquirePermits (RateLimitParam.Both n) inner =
      (if n ≤ inner.weight.remain ∧ 1 ≤ inner.raw_requests.remain ∧
          1 ≤ inner.order_sec10.remain ∧ 1 ≤ inner.order_day1.remain then
        some { inner with
          weight := { inner.weight with remain := inner.weight.remain - n },
          raw_requests :=
            { inner.raw_requests with remain := inner.raw_requests.remain - 1 },
          order_sec10 :=
            { inner.order_sec10 with remain := inner.order_sec10.remain - 1 },
          order_day1 :=
            { inner.order_day1 with remain := inner.order_day1.remain - 1 } }
      else none) := rfl

theorem tryAcquirePermits_Order_eq_Both (n : Nat)
    (inner : RestApiRateLimitsInner) :
    tryAcquirePermits (RateLimitParam.Order n) inner =
      tryAcquirePermits (RateLimitParam.Both n) inner := rfl

theorem tryAcquirePermits_some (p : RateLimitParam)
    (inner s' : RestApiRateLimitsInner)
    (h : tryAcquirePermits p inner = some s') :
    (s'.weight.rate_limit = inner.weight.rate_limit ∧
      s'.weight.remain ≤ inner.weight.remain) ∧
    (s'.order_sec10.rate_limit = inner.order_sec10.rate_limit ∧
      s'.order_sec10.remain ≤ inner.order_sec10.remain) ∧
    (s'.order_day1.rate_limit = inner.order_day1.rate_limit ∧
      s'.order_day1.remain ≤ inner.order_day1.remain) ∧
    (s'.raw_requests.rate_limit = inner.raw_requests.rate_limit ∧
      s'.raw_requests.remain ≤ inner.raw_requests.remain) := by
  cases p with
  | Weight n =>
      rw [tryAcquirePermits_Weight_eq] at h
      split at h
      · injection h with h'
        subst h'
        refine ⟨⟨rfl, ?_⟩, ⟨rfl, ?_⟩, ⟨rfl, ?_⟩, ⟨rfl, ?_⟩⟩ <;> simp
      · exact Option.noConfusion h
  | Order n =>
      rw [tryAcquirePermits_Order_eq_Both, tryAcquirePermits_Both_eq] at h
      split at h
      · injection h with h'
        subst h'
        refine ⟨⟨rfl, ?_⟩, ⟨rfl, ?_⟩, ⟨rfl, ?_⟩, ⟨rfl, ?_⟩⟩ <;> simp
      · exact Option.noConfusion h
  | Both n =>
      rw [tryAcquirePermits_Both_eq] at h
      split at h
      · injection h with h'
        subst h'
        refine ⟨⟨rfl, ?_⟩, ⟨rfl, ?_⟩, ⟨rfl, ?_⟩, ⟨rfl, ?_⟩⟩ <;> simp
      · exact Option.noConfusion h

theorem applyOp_rate_limits (inner : RestApiRateLimitsInner) (op : RateOp) :
    (applyOp inner op).weight.rate_limit = inner.weight.rate_limit ∧
    (applyOp inner op).order_sec10.rate_limit = inner.order_sec10.rate_limit ∧
    (applyOp inner op).order_day1.rate_limit = inner.order_day1.rate_limit ∧
    (applyOp inner op).raw_requests.rate_limit = inner.raw_requests.rate_limit := by
  cases op with
  | acquire p =>
      simp only [applyOp]
      cases h : tryAcquirePermits p inner with
      | none => simp
      | some s' =>
          obtain ⟨⟨h1, _⟩, ⟨h2, _⟩, ⟨h3, _⟩, ⟨h4, _⟩⟩ :=
            tryAcquirePermits_some p inner s' h
          simp [h1, h2, h3, h4]
  | reconcile t w s10 d1 =>
      simp [applyOp, set_permits, setPermitsDim_rate_limit]

theorem applyOp_dimsOk (inner : RestApiRateLimitsInner) (op : RateOp)
    (hok : dimsOk inner) (hop : opOk inner op) :
    dimsOk (applyOp inner op) := by
  obtain ⟨hw, hs10, hd1, hraw⟩ := hok
  cases op with
  | acquire p =>
      simp only [applyOp]
      cases h : tryAcquirePermits p inner with
      | none => exact ⟨hw, hs10, hd1, hraw⟩
      | some s' =>
          obtain ⟨⟨e1, l1⟩, ⟨e2, l2⟩, ⟨e3, l3⟩, ⟨e4, l4⟩⟩ :=
            tryAcquirePermits_some p inner s' h
          simp only [Option.getD_some]
          exact ⟨⟨e1 ▸ le_trans l1 hw.1, e1 ▸ hw.2⟩,
            ⟨e2 ▸ le_trans l2 hs10.1, e2 ▸ hs10.2⟩,
            ⟨e3 ▸ le_trans l3 hd1.1, e3 ▸ hd1.2⟩,
            ⟨e4 ▸ le_trans l4 hraw.1, e4 ▸ hraw.2⟩⟩
  | reconcile t w s10 d1 =>
      obtain ⟨hu1, hu2, hu3⟩ := hop
      exact ⟨setPermitsDim_infoOk t w inner.weight hw hu1,
        setPermitsDim_infoOk t s10 inner.order_sec10 hs10 hu2,
        setPermitsDim_infoOk t d1 inner.order_day1 hd1 hu3,
        hraw⟩

theorem opOk_congr (inner inner' : RestApiRateLimitsInner) (op : RateOp)
    (h1 : inner'.weight.rate_limit = inner.weight.rate_limit)
    (h2 : inner'.order_sec10.rate_limit = inner.order_sec10.rate_limit)
    (h3 : inner'.order_day1.rate_limit = inner.order_day1.rate_limit)
    (h : opOk inner op) : opOk inner' op := by
  cases op with
  | acquire p => trivial
  | reconcile t w s10 d1 =>
      simp only [opOk, h1, h2, h3] at *
      exact h

/-- Per-dimension semantics of one `set_permits` block: when the response
timestamp is strictly after the dimension's last reset and the reported used
value is within capacity, the new `remain` is
`capacity - max (capacity - old remain) observed`; when the response timestamp
is not after the last reset, the dimension is left entirely unchanged. -/
theorem setPermitsDim_semantics (t : Nat) (u : Option Nat)
    (info : RestApiRateLimitInfo) :
    (∀ n, u = some n → n ≤ info.rate_limit.limit → infoOk info →
      info.reset_datetime < t →
      (setPermitsDim t u info).remain =
        info.rate_limit.limit -
          max (info.rate_limit.limit - info.remain) n) ∧
    (¬ info.reset_datetime < t → setPermitsDim t u info = info) := by
  constructor
  · intro n hu hcap hok hlt
    obtain ⟨hrem, hM⟩ := hok
    subst hu
    simp only [setPermitsDim, if_pos hlt]
    rw [u32Sub_of_le hrem hM]
    have hmax : max (info.rate_limit.limit - info.remain) n ≤
        info.rate_limit.limit := by omega
    rw [u32Sub_of_le hmax hM]
  · intro h
    simp only [setPermitsDim, if_neg h]

/-! ### Claim theorems for the rate-limit coordinator -/

/-- C1 (amended): for every sequence of `acquire_permits` / `set_permits`
calls from a well-formed state, each dimension's `remain` stays within
`[0, capacity]`, provided every `set_permits` call reports used values that
are at most the corresponding dimension's capacity.  (As the claim originally
stood — including a server-reported used value larger than the capacity — it
is refuted by `reconcile_above_capacity_breaks_bound`: the unchecked `u32`
subtraction `limit - used` wraps.) -/
theorem acquire_reconcile_remain_within_capacity
    (start : RestApiRateLimitsInner) (ops : List RateOp)
    (hstart : dimsOk start) (hops : ∀ op ∈ ops, opOk start op) :
    dimsOk (runOps start ops) := by
  induction ops generalizing start with
  | nil => exact hstart
  | cons op ops ih =>
      have hstep : dimsOk (applyOp start op) :=
        applyOp_dimsOk start op hstart (hops op (List.mem_cons_self op ops))
      have hlim := applyOp_rate_limits start op
      refine ih (applyOp start op) hstep ?_
      intro op' hmem
      exact opOk_congr start (applyOp start op) op'
        hlim.1 hlim.2.1 hlim.2.2.1 (hops op' (List.mem_cons_of_mem op hmem))

/-- Witness for C1 at a concrete run: an order acquire followed by an
in-capacity reconcile, starting from the default limits. -/
theorem acquire_reconcile_remain_within_capacity_witness :
    dimsOk (runOps (RestApiRateLimitsInner.default 0)
      [RateOp.acquire (RateLimitParam.Order 5),
       RateOp.reconcile 1 (some 10) (some 2) (some 3)]) :=
  acquire_reconcile_remain_within_capacity
    (RestApiRateLimitsInner.default 0)
    [RateOp.acquire (RateLimitParam.Order 5),
     RateOp.reconcile 1 (some 10) (some 2) (some 3)]
    (by decide) (by decide)

/-- C1 counterexample: from the default state (weight capacity 6000, weight
remain 6000, reset instant 0), a single `set_permits` at time 1 reporting a
used weight of 6001 — one unit above capacity — drives `remain` to
`2^32 - 1`, far outside `[0, capacity]`: the invariant of the claim fails. -/
theorem reconcile_above_capacity_breaks_bound :
    (runOps (RestApiRateLimitsInner.default 0)
        [RateOp.reconcile 1 (some 6001) none none]).weight.remain
      = 4294967295 ∧
    ¬ dimsOk (runOps (RestApiRateLimitsInner.default 0)
        [RateOp.reconcile 1 (some 6001) none none]) := by decide

/-- A state in which the weight, 10-second-order and raw-request windows are
fully used up (their `remain` is 0), as left by earlier traffic. -/
def depletedInner : RestApiRateLimitsInner :=
  let d := RestApiRateLimitsInner.default 0
  { d with
    weight := { d.weight with remain := 0 },
    order_sec10 := { d.order_sec10 with remain := 0 },
    raw_requests := { d.raw_requests with remain := 0 } }

/-- C2 (evaluation at the failing input): 3,900,000 ms after the epoch is
01:05:00 UTC — simultaneously a 1-minute, 10-second and 5-minute window
boundary and not midnight.  The claim requires the tick to reset `weight` to
6000 and `order_sec10` to 50 along with `raw_requests`; the `run_tick` branch
cascade instead resets only `raw_requests` (the `m % 5 == 0` arm `continue`s
past the minute-level and 10-second-level resets), leaving the depleted
`weight` and `order_sec10` at 0. -/
theorem tick_at_five_minute_boundary_skips_minute_and_sec10_resets :
    hourOf 3900000 = 1 ∧ minuteOf 3900000 = 5 ∧ secondOf 3900000 = 0 ∧
    (runTickStep 3900000 depletedInner).raw_requests.remain = 61000 ∧
    (runTickStep 3900000 depletedInner).weight.remain = 0 ∧
    (runTickStep 3900000 depletedInner).order_sec10.remain = 0 := by decide

/-- The coordinator state of end-to-end scenario 3 of the spec: the weight
dimension has capacity 10, remaining 7, and was last reset at instant 0. -/
def scenario3Inner : RestApiRateLimitsInner :=
  { RestApiRateLimitsInner.default 0 with
    weight :=
      { rate_limit :=
          ⟨RateLimitType.RequestWeight, RateLimitInterVal.Minute, 1, 10, 0⟩,
        remain := 7, reset_datetime := 0 } }

/-- C4: for every `set_permits` call and each reported dimension, if the
response timestamp is strictly after the dimension's last reset instant the
new `remain` is `capacity - max (capacity - old remain) observed` (stated for
observed values within capacity, where the subtraction is the mathematical
one); if the response timestamp is not after the last reset instant the
dimension is left unchanged.  The final clause is the spec's scenario 3:
reconciling `{Weight ↦ 9}` at time 1 > 0 with capacity 10 and remaining 7
leaves `remain = 10 - max 3 9 = 1`. -/
theorem set_permits_reconcile_semantics
    (inner : RestApiRateLimitsInner) (t : Nat) (w s10 d1 : Option Nat) :
    (∀ n, w = some n → n ≤ inner.weight.rate_limit.limit →
      infoOk inner.weight → inner.weight.reset_datetime < t →
      (set_permits inner t w s10 d1).weight.remain =
        inner.weight.rate_limit.limit -
          max (inner.weight.rate_limit.limit - inner.weight.remain) n) ∧
    (¬ inner.weight.reset_datetime < t →
      (set_permits inner t w s10 d1).weight = inner.weight) ∧
    (∀ n, s10 = some n → n ≤ inner.order_sec10.rate_limit.limit →
      infoOk inner.order_sec10 → inner.order_sec10.reset_datetime < t →
      (set_permits inner t w s10 d1).order_sec10.remain =
        inner.order_sec10.rate_limit.limit -
          max (inner.order_sec10.rate_limit.limit - inner.order_sec10.remain) n) ∧
    (¬ inner.order_sec10.reset_datetime < t →
      (set_permits inner t w s10 d1).order_sec10 = inner.order_sec10) ∧
    (∀ n, d1 = some n → n ≤ inner.order_day1.rate_limit.limit →
      infoOk inner.order_day1 → inner.order_day1.reset_datetime < t →
      (set_permits inner t w s10 d1).order_day1.remain =
        inner.order_day1.rate_limit.limit -
          max (inner.order_day1.rate_limit.limit - inner.order_day1.remain) n) ∧
    (¬ inner.order_day1.reset_datetime < t →
      (set_permits inner t w s10 d1).order_day1 = inner.order_day1) ∧
    (set_permits scenario3Inner 1 (some 9) none none).weight.remain = 1 := by
  refine ⟨?_, ?_, ?_, ?_, ?_, ?_, by decide⟩
  · intro n hu hcap hok hlt
    exact (setPermitsDim_semantics t w inner.weight).1 n hu hcap hok hlt
  · intro h
    exact (setPermitsDim_semantics t w inner.weight).2 h
  · intro n hu hcap hok hlt
    exact (setPermitsDim_semantics t s10 inner.order_sec10).1 n hu hcap hok hlt
  · intro h
    exact (setPermitsDim_semantics t s10 inner.order_sec10).2 h
  · intro n hu hcap hok hlt
    exact (setPermitsDim_semantics t d1 inner.order_day1).1 n hu hcap hok hlt
  · intro h
    exact (setPermitsDim_semantics t d1 inner.order_day1).2 h

/-- Witness for C4 at the spec's scenario 3 input. -/
theorem set_permits_reconcile_semantics_witness :
    (set_permits scenario3Inner 1 (some 9) none none).weight.remain =
      scenario3Inner.weight.rate_limit.limit -
        max (scenario3Inner.weight.rate_limit.limit -
          scenario3Inner.weight.remain) 9 :=
  (set_permits_reconcile_semantics scenario3Inner 1 (some 9) none none).1
    9 rfl (by decide) (by decide) (by decide)

/-- C5: an acquire with a `Both(n)` cost is all-or-nothing.  When every
implicated dimension has enough remaining capacity, the single critical
section decrements all of them at once (weight by `n`; raw-request,
10-second-order and daily-order counts by 1); otherwise the critical section
leaves the state completely unchanged and the caller waits and retries.  No
partially-decremented state exists. -/
theorem acquire_both_all_or_nothing (inner : RestApiRateLimitsInner) (n : Nat) :
    ((n ≤ inner.weight.remain ∧ 1 ≤ inner.raw_requests.remain ∧
        1 ≤ inner.order_sec10.remain ∧ 1 ≤ inner.order_day1.remain) →
      tryAcquirePermits (RateLimitParam.Both n) inner =
        some { inner with
          weight := { inner.weight with remain := inner.weight.remain - n },
          raw_requests :=
            { inner.raw_requests with remain := inner.raw_requests.remain - 1 },
          order_sec10 :=
            { inner.order_sec10 with remain := inner.order_sec10.remain - 1 },
          order_day1 :=
            { inner.order_day1 with remain := inner.order_day1.remain - 1 } }) ∧
    (¬ (n ≤ inner.weight.remain ∧ 1 ≤ inner.raw_requests.remain ∧
        1 ≤ inner.order_sec10.remain ∧ 1 ≤ inner.order_day1.remain) →
      tryAcquirePermits (RateLimitParam.Both n) inner = none) := by
  rw [tryAcquirePermits_Both_eq]
  constructor
  · intro h
    rw [if_pos h]
  · intro h
    rw [if_neg h]

/-- Witness for C5: acquiring `Both(5)` from the default state decrements all
four dimensions in the one step. -/
theorem acquire_both_all_or_nothing_witness :
    tryAcquirePermits (RateLimitParam.Both 5)
        (RestApiRateLimitsInner.default 0) =
      some { RestApiRateLimitsInner.default 0 with
        weight := { (RestApiRateLimitsInner.default 0).weight with
          remain := (RestApiRateLimitsInner.default 0).weight.remain - 5 },
        raw_requests := { (RestApiRateLimitsInner.default 0).raw_requests with
          remain := (RestApiRateLimitsInner.default 0).raw_requests.remain - 1 },
        order_sec10 := { (RestApiRateLimitsInner.default 0).order_sec10 with
          remain := (RestApiRateLimitsInner.default 0).order_sec10.remain - 1 },
        order_day1 := { (RestApiRateLimitsInner.default 0).order_day1 with
          remain := (RestApiRateLimitsInner.default 0).order_day1.remain - 1 } } :=
  (acquire_both_all_or_nothing (RestApiRateLimitsInner.default 0) 5).1
    (by decide)

/-- C10: `acquire_permits` treats `Order(n)` and `Both(n)` identically — the
`match` maps both to the same `(n, order_flag = true)` pair, so for every
state the attempted transition is the same and the resulting states are
equal. -/
theorem acquire_order_both_identical (n : Nat)
    (inner : RestApiRateLimitsInner) :
    tryAcquirePermits (RateLimitParam.Order n) inner =
      tryAcquirePermits (RateLimitParam.Both n) inner := rfl

/-! ### `src/errors.rs` -/

/-- The variants of `BiAnApiError` reachable from the REST paths modelled
here (the websocket/io/serde variants carry foreign error types and are not
constructed by the code under study). -/
inductive BiAnApiError
  | ClientError (body : String)
  | BadRequest (code : Int) (msg : String)
  | ServerError (body : String)
  | Waf
  | WafWarning
  | Blocked
  | ConnectError (msg : String)
  | RequestError (msg : String)
  | MethodError (msg : String)
  | Unknown (body : String)
  deriving DecidableEq, Repr

/-- `errors::BadRequest`, the structured `{code, msg}` body of a 400. -/
structure BadRequestBody where
  code : Int
  msg : String
  deriving DecidableEq, Repr

/-! ### `src/client/rest.rs` -/

/-- `RestMethod` (src/client/rest.rs:58-64). -/
inductive RestMethod
  | Get
  | Post
  | Put
  | Delete
  deriving DecidableEq, Repr

/-- ASCII lowercasing of one character (the method names are ASCII, so this
matches `str::to_lowercase` on every input `rest_req` distinguishes). -/
def charToLower (c : Char) : Char :=
  if 'A' ≤ c ∧ c ≤ 'Z' then Char.ofNat (c.toNat + 32) else c

/-- `s.to_lowercase()`, structurally on the character list. -/
def strToLower (s : String) : String := ⟨s.data.map charToLower⟩

/-- `RestMethod::from_str` (src/client/rest.rs:74-83): lowercases, then
matches; the error carries the lowercased string (`MethodError { msg: m }`). -/
def RestMethod.from_str (s : String) : Except String RestMethod :=
  let m := strToLower s
  if m = "get" then Except.ok RestMethod.Get
  else if m = "put" then Except.ok RestMethod.Put
  else if m = "post" then Except.ok RestMethod.Post
  else if m = "delete" then Except.ok RestMethod.Delete
  else Except.error m

/-- `RestConn::check_rest_resp` (src/client/rest.rs:176-202).
`parseBadRequest` stands for `serde_json::from_str::<BadRequest>` applied to
the body text; every branch reads the same body text
(`resp.text().await.unwrap_or_default()`). -/
def check_rest_resp (parseBadRequest : String → Option BadRequestBody)
    (status_code : Nat) (body : String) : Except BiAnApiError Unit :=
  if 300 ≤ status_code then
    let e :=
      if 500 ≤ status_code then BiAnApiError.ServerError body
      else if status_code = 400 then
        match parseBadRequest body with
        | some error => BiAnApiError.BadRequest error.code error.msg
        | none => BiAnApiError.ClientError body
      else if status_code = 403 then BiAnApiError.Waf
      else if status_code = 418 then BiAnApiError.Blocked
      else if status_code = 429 then BiAnApiError.WafWarning
      else if 400 < status_code then BiAnApiError.ClientError body
      else BiAnApiError.Unknown body
    Except.error e
  else Except.ok ()

/-- The rate-limit response headers consumed by `RestConn::set_rate_limit`:
the `Date` header (already parsed to ms since epoch) and the three used
counters. -/
structure RespHeaders where
  date : Nat
  weight_used : Option Nat
  order_sec10_used : Option Nat
  order_day1_used : Option Nat
  deriving DecidableEq, Repr

/-- The result of one `req.send().await` attempt, as `rest_req` inspects it:
a response (status, body text, rate-limit headers), a connect/timeout error
(`e.is_connect() || e.is_timeout()`), or any other request error. -/
inductive SendOutcome
  | ok (status : Nat) (body : String) (headers : RespHeaders)
  | connectErr (msg : String)
  | timeoutErr (msg : String)
  | otherErr (msg : String)
  deriving DecidableEq, Repr

/-- Observable actions of one `rest_req` call, in order: the
`acquire_permits` call into the coordinator, each `req.send()` attempt, each
inter-retry `time::sleep` (seconds), and the `set_rate_limit` reconciliation
from the response headers. -/
inductive RestEvent
  | acquire (p : RateLimitParam)
  | send (attempt : Nat)
  | sleep (secs : Nat)
  | reconcile (headers : RespHeaders)
  deriving DecidableEq, Repr

/-- The retry loop of `rest_req` (src/client/rest.rs:295-325).  `retry` is
the Rust counter at loop entry (initially 6); the loop body first decrements
it, sends attempt `i`, and on a connect/timeout error either gives up
(decremented counter = 0) or sleeps 1 second and retries.  The `retry = 0`
branch is unreachable from the initial value 6. -/
def sendLoop (outcomes : Nat → SendOutcome) (i : Nat) :
    Nat → List RestEvent × Except BiAnApiError (Nat × String × RespHeaders)
  | 0 => ([], Except.error (BiAnApiError.ConnectError ""))
  | retry + 1 =>
    match outcomes i with
    | SendOutcome.ok st body hd => ([RestEvent.send i], Except.ok (st, body, hd))
    | SendOutcome.connectErr msg =>
        if retry = 0 then
          ([RestEvent.send i], Except.error (BiAnApiError.ConnectError msg))
        else
          let r := sendLoop outcomes (i + 1) retry
          (RestEvent.send i :: RestEvent.sleep 1 :: r.1, r.2)
    | SendOutcome.timeoutErr msg =>
        if retry = 0 then
          ([RestEvent.send i], Except.error (BiAnApiError.ConnectError msg))
        else
          let r := sendLoop outcomes (i + 1) retry
          (RestEvent.send i :: RestEvent.sleep 1 :: r.1, r.2)
    | SendOutcome.otherErr msg =>
        ([RestEvent.send i], Except.error (BiAnApiError.RequestError msg))

/-- `path.starts_with("/api")`: a byte-prefix test, modelled structurally on
the character list so that concrete runs evaluate. -/
def strStartsWith (s pre : String) : Bool := pre.data.isPrefixOf s.data

/-- `RestConn::rest_req` (src/client/rest.rs:264-351) as the pair of its
event trace and its result.  In order: `make_url` (pure, handled separately
by `make_url_query`), the guarded `acquire_permits` (only for paths starting
with `/api`), the retry loop (method parse failures return through `?`
before the first send), then `set_rate_limit` from the winning response's
headers, then `check_rest_resp`, then the body text. -/
def rest_req (parseBadRequest : String → Option BadRequestBody)
    (method path : String) (rate_limit : RateLimitParam)
    (outcomes : Nat → SendOutcome) :
    List RestEvent × Except BiAnApiError String :=
  let pre := if strStartsWith path "/api" then [RestEvent.acquire rate_limit]
    else []
  match RestMethod.from_str method with
  | Except.error m => (pre, Except.error (BiAnApiError.MethodError m))
  | Except.ok _ =>
    let r := sendLoop outcomes 0 6
    match r.2 with
    | Except.error e => (pre ++ r.1, Except.error e)
    | Except.ok (st, body, hd) =>
        let events := pre ++ r.1 ++ [RestEvent.reconcile hd]
        match check_rest_resp parseBadRequest st body with
        | Except.error e => (events, Except.error e)
        | Except.ok _ => (events, Except.ok body)

/-- Is this event an `acquire`? -/
def isAcquireEv : RestEvent → Bool
  | RestEvent.acquire _ => true
  | _ => false

/-- Is this event a `send`? -/
def isSendEv : RestEvent → Bool
  | RestEvent.send _ => true
  | _ => false

/-- Is this event a `sleep`? -/
def isSleepEv : RestEvent → Bool
  | RestEvent.sleep _ => true
  | _ => false

/-- Number of `send` events in a trace. -/
def countSend (tr : List RestEvent) : Nat := tr.countP isSendEv

/-- Number of `sleep` events in a trace. -/
def countSleep (tr : List RestEvent) : Nat := tr.countP isSleepEv

/-- Whether a trace contains an `acquire` event. -/
def hasAcquire (tr : List RestEvent) : Bool := tr.any isAcquireEv

/-- The response headers used by the concrete REST runs below. -/
def emptyHeaders : RespHeaders := ⟨0, none, none, none⟩

/-- A body parser that never recognises a structured `{code, msg}` body. -/
def noParse : String → Option BadRequestBody := fun _ => none

/-- A transport that answers every attempt with `200 OK` and an empty body. -/
def okOutcome : Nat → SendOutcome :=
  fun _ => SendOutcome.ok 200 "" emptyHeaders

/-! ### Lemmas about the REST trace -/

theorem sendLoop_no_acquire (outcomes : Nat → SendOutcome) :
    ∀ retry i, hasAcquire (sendLoop outcomes i retry).1 = false := by
  intro retry
  induction retry with
  | zero => intro i; rfl
  | succ retry ih =>
      intro i
      simp only [sendLoop]
      cases outcomes i with
      | ok st body hd => rfl
      | connectErr msg =>
          dsimp only
          by_cases h : retry = 0
          · rw [if_pos h]; rfl
          · rw [if_neg h]
            simp only [hasAcquire, List.any_cons, isAcquireEv]
            have := ih (i + 1)
            simp only [hasAcquire] at this
            simp [this]
      | timeoutErr msg =>
          dsimp only
          by_cases h : retry = 0
          · rw [if_pos h]; rfl
          · rw [if_neg h]
            simp only [hasAcquire, List.any_cons, isAcquireEv]
            have := ih (i + 1)
            simp only [hasAcquire] at this
            simp [this]
      | otherErr msg => rfl

theorem rest_req_trace_split (parseBadRequest : String → Option BadRequestBody)
    (method path : String) (p : RateLimitParam) (outcomes : Nat → SendOutcome) :
    ∃ rest, (rest_req parseBadRequest method path p outcomes).1 =
      (if strStartsWith path "/api" then [RestEvent.acquire p] else []) ++ rest ∧
      hasAcquire rest = false := by
  cases hm : RestMethod.from_str method with
  | error m =>
      exact ⟨[], by simp [rest_req, hm], rfl⟩
  | ok mm =>
      cases hr : (sendLoop outcomes 0 6).2 with
      | error e =>
          refine ⟨(sendLoop outcomes 0 6).1, ?_, sendLoop_no_acquire outcomes 6 0⟩
          simp [rest_req, hm, hr]
      | ok triple =>
          obtain ⟨st, body, hd⟩ := triple
          refine ⟨(sendLoop outcomes 0 6).1 ++ [RestEvent.reconcile hd], ?_, ?_⟩
          · cases hc : check_rest_resp parseBadRequest st body <;>
              simp [rest_req, hm, hr, hc, List.append_assoc]
          · have := sendLoop_no_acquire outcomes 6 0
            simp only [hasAcquire, List.any_append, List.any_cons,
              List.any_nil, isAcquireEv] at this ⊢
            simp [this]

/-! ### Claim theorems for the REST layer -/

/-- C6: the HTTP status-to-error mapping of `check_rest_resp`:
5xx → `ServerError` with the body text; 400 with a parseable `{code, msg}`
body → `BadRequest(code, msg)`, 400 otherwise → `ClientError` with the body
text; 403 → `Waf`; 418 → `Blocked`; 429 → `WafWarning`; every other 4xx →
`ClientError` with the body text; a status below 300 is not an error. -/
theorem check_rest_resp_status_mapping
    (parseBadRequest : String → Option BadRequestBody)
    (st : Nat) (body : String) :
    (500 ≤ st →
      check_rest_resp parseBadRequest st body =
        Except.error (BiAnApiError.ServerError body)) ∧
    (st = 400 → ∀ br, parseBadRequest body = some br →
      check_rest_resp parseBadRequest st body =
        Except.error (BiAnApiError.BadRequest br.code br.msg)) ∧
    (st = 400 → parseBadRequest body = none →
      check_rest_resp parseBadRequest st body =
        Except.error (BiAnApiError.ClientError body)) ∧
    (st = 403 →
      check_rest_resp parseBadRequest st body =
        Except.error BiAnApiError.Waf) ∧
    (st = 418 →
      check_rest_resp parseBadRequest st body =
        Except.error BiAnApiError.Blocked) ∧
    (st = 429 →
      check_rest_resp parseBadRequest st body =
        Except.error BiAnApiError.WafWarning) ∧
    (400 < st → st < 500 → st ≠ 403 → st ≠ 418 → st ≠ 429 →
      check_rest_resp parseBadRequest st body =
        Except.error (BiAnApiError.ClientError body)) ∧
    (st < 300 → check_rest_resp parseBadRequest st body = Except.ok ()) := by
  refine ⟨?_, ?_, ?_, ?_, ?_, ?_, ?_, ?_⟩
  · intro h
    unfold check_rest_resp
    rw [if_pos (by omega), if_pos h]
  · intro h br hbr
    subst h
    unfold check_rest_resp
    rw [if_pos (by omega), if_neg (by omega), if_pos rfl, hbr]
  · intro h hbr
    subst h
    unfold check_rest_resp
    rw [if_pos (by omega), if_neg (by omega), if_pos rfl, hbr]
  · intro h
    subst h
    unfold check_rest_resp
    rw [if_pos (by omega), if_neg (by omega), if_neg (by omega), if_pos rfl]
  · intro h
    subst h
    unfold check_rest_resp
    rw [if_pos (by omega), if_neg (by omega), if_neg (by omega),
      if_neg (by omega), if_pos rfl]
  · intro h
    subst h
    unfold check_rest_resp
    rw [if_pos (by omega), if_neg (by omega), if_neg (by omega),
      if_neg (by omega), if_neg (by omega), if_pos rfl]
  · intro h1 h2 h403 h418 h429
    unfold check_rest_resp
    rw [if_pos (by omega), if_neg (by omega), if_neg (by omega),
      if_neg h403, if_neg h418, if_neg h429, if_pos h1]
  · intro h
    unfold check_rest_resp
    rw [if_neg (by omega)]

/-- Witness for C6 at a 500 response. -/
theorem check_rest_resp_status_mapping_witness :
    check_rest_resp noParse 500 "oops" =
      Except.error (BiAnApiError.ServerError "oops") :=
  (check_rest_resp_status_mapping noParse 500 "oops").1 (by omega)

/-- C3 (amended): a `rest_req` call whose path starts with `/api` acquires a
permit from the coordinator before anything else — in particular before any
send attempt — and this is the only acquire of the call; a `rest_req` call
whose path does not start with `/api` (e.g. the `/sapi` endpoints) never
touches the coordinator.  (The original claim — every `rest_req` acquires a
permit — is refuted by `sapi_request_bypasses_coordinator`.) -/
theorem rest_req_api_paths_acquire_before_send
    (parseBadRequest : String → Option BadRequestBody)
    (method path : String) (p : RateLimitParam)
    (outcomes : Nat → SendOutcome) :
    (strStartsWith path "/api" = true →
      ∃ tl, (rest_req parseBadRequest method path p outcomes).1 =
        RestEvent.acquire p :: tl ∧ hasAcquire tl = false) ∧
    (strStartsWith path "/api" = false →
      hasAcquire (rest_req parseBadRequest method path p outcomes).1 = false) := by
  obtain ⟨rest, hsplit, hrest⟩ :=
    rest_req_trace_split parseBadRequest method path p outcomes
  constructor
  · intro hpath
    refine ⟨rest, ?_, hrest⟩
    rw [hsplit, if_pos hpath]
    rfl
  · intro hpath
    rw [hsplit, if_neg (by simp [hpath])]
    simpa using hrest

/-- Witness for C3: a market-data call on `/api/v3/klines` begins with its
permit acquisition and acquires no further permit. -/
theorem rest_req_api_paths_acquire_before_send_witness :
    ∃ tl, (rest_req noParse "get" "/api/v3/klines"
        (RateLimitParam.Weight 1) okOutcome).1 =
      RestEvent.acquire (RateLimitParam.Weight 1) :: tl ∧
      hasAcquire tl = false :=
  (rest_req_api_paths_acquire_before_send noParse "get" "/api/v3/klines"
    (RateLimitParam.Weight 1) okOutcome).1 rfl

/-- C3 counterexample: a `rest_req` to `/sapi/v1/capital` sends the HTTP
request (one `send` event, a successful result) without ever calling
`acquire_permits` — the full trace is just the send and the header
reconciliation, refuting "no outbound REST request bypasses the
coordinator". -/
theorem sapi_request_bypasses_coordinator :
    rest_req noParse "get" "/sapi/v1/capital"
        (RateLimitParam.Weight 1) okOutcome =
      ([RestEvent.send 0, RestEvent.reconcile emptyHeaders], Except.ok "") ∧
    hasAcquire (rest_req noParse "get" "/sapi/v1/capital"
        (RateLimitParam.Weight 1) okOutcome).1 = false :=
  ⟨rfl, rfl⟩

theorem sendLoop_succ (outcomes : Nat → SendOutcome) (i retry : Nat) :
    sendLoop outcomes i (retry + 1) =
      match outcomes i with
      | SendOutcome.ok st body hd =>
          ([RestEvent.send i], Except.ok (st, body, hd))
      | SendOutcome.connectErr msg =>
          if retry = 0 then
            ([RestEvent.send i], Except.error (BiAnApiError.ConnectError msg))
          else
            (RestEvent.send i :: RestEvent.sleep 1 ::
              (sendLoop outcomes (i + 1) retry).1,
              (sendLoop outcomes (i + 1) retry).2)
      | SendOutcome.timeoutErr msg =>
          if retry = 0 then
            ([RestEvent.send i], Except.error (BiAnApiError.ConnectError msg))
          else
            (RestEvent.send i :: RestEvent.sleep 1 ::
              (sendLoop outcomes (i + 1) retry).1,
              (sendLoop outcomes (i + 1) retry).2)
      | SendOutcome.otherErr msg =>
          ([RestEvent.send i], Except.error (BiAnApiError.RequestError msg)) :=
  rfl

theorem sendLoop_connectErr_const (msg : String) :
    ∀ retry i,
      (sendLoop (fun _ => SendOutcome.connectErr msg) i (retry + 1)).2 =
        Except.error (BiAnApiError.ConnectError msg) ∧
      countSend
        (sendLoop (fun _ => SendOutcome.connectErr msg) i (retry + 1)).1 =
        retry + 1 ∧
      countSleep
        (sendLoop (fun _ => SendOutcome.connectErr msg) i (retry + 1)).1 =
        retry := by
  intro retry
  induction retry with
  | zero => intro i; exact ⟨rfl, rfl, rfl⟩
  | succ r ih =>
      intro i
      obtain ⟨h1, h2, h3⟩ := ih (i + 1)
      rw [sendLoop_succ]
      dsimp only
      rw [if_neg (Nat.succ_ne_zero r)]
      simp only [countSend, countSleep] at h2 h3 ⊢
      refine ⟨h1, ?_, ?_⟩ <;>
        simp [List.countP_cons, isSendEv, isSleepEv, h2, h3]

/-- C7 (amended): the retry loop of `rest_req` retries only transport-level
connect/timeout failures — up to 6 attempts with a fixed 1-second sleep
between attempts — and a response with a 5xx status is **not** retried: the
`ServerError` is returned to the caller after the single attempt that
received it (no further send, no sleep). -/
theorem rest_req_retries_transport_errors_only
    (parseBadRequest : String → Option BadRequestBody)
    (method path : String) (p : RateLimitParam) (m : RestMethod)
    (hm : RestMethod.from_str method = Except.ok m) :
    (∀ outcomes st body hd, outcomes 0 = SendOutcome.ok st body hd →
      500 ≤ st →
      (rest_req parseBadRequest method path p outcomes).2 =
        Except.error (BiAnApiError.ServerError body) ∧
      countSend (rest_req parseBadRequest method path p outcomes).1 = 1 ∧
      countSleep (rest_req parseBadRequest method path p outcomes).1 = 0) ∧
    (∀ msg,
      (rest_req parseBadRequest method path p
          (fun _ => SendOutcome.connectErr msg)).2 =
        Except.error (BiAnApiError.ConnectError msg) ∧
      countSend (rest_req parseBadRequest method path p
          (fun _ => SendOutcome.connectErr msg)).1 = 6 ∧
      countSleep (rest_req parseBadRequest method path p
          (fun _ => SendOutcome.connectErr msg)).1 = 5) := by
  constructor
  · intro outcomes st body hd h0 h500
    have hsl : sendLoop outcomes 0 6 =
        ([RestEvent.send 0], Except.ok (st, body, hd)) := by
      show sendLoop outcomes 0 (5 + 1) = _
      simp only [sendLoop, h0]
    have hcheck : check_rest_resp parseBadRequest st body =
        Except.error (BiAnApiError.ServerError body) := by
      unfold check_rest_resp
      rw [if_pos (by omega), if_pos h500]
    cases hpre : strStartsWith path "/api" <;>
      simp [rest_req, hm, hsl, hcheck, hpre, countSend, countSleep,
        List.countP_append, List.countP_cons, isSendEv, isSleepEv]
  · intro msg
    have h1 : (sendLoop (fun _ => SendOutcome.connectErr msg) 0 6).2 =
        Except.error (BiAnApiError.ConnectError msg) :=
      (sendLoop_connectErr_const msg 5 0).1
    have h2 : countSend
        (sendLoop (fun _ => SendOutcome.connectErr msg) 0 6).1 = 6 :=
      (sendLoop_connectErr_const msg 5 0).2.1
    have h3 : countSleep
        (sendLoop (fun _ => SendOutcome.connectErr msg) 0 6).1 = 5 :=
      (sendLoop_connectErr_const msg 5 0).2.2
    simp only [countSend, countSleep] at h2 h3
    cases hpre : strStartsWith path "/api" <;>
      simp [rest_req, hm, h1, hpre, countSend, countSleep,
        List.countP_append, List.countP_cons, isSendEv, isSleepEv, h2, h3]

/-- Witness for C7: a single 500 response ends the call at once with a
`ServerError`, after exactly one send and no sleep. -/
theorem rest_req_retries_transport_errors_only_witness :
    (rest_req noParse "get" "/api/v3/klines" (RateLimitParam.Weight 1)
        (fun _ => SendOutcome.ok 500 "oops" emptyHeaders)).2 =
      Except.error (BiAnApiError.ServerError "oops") ∧
    countSend (rest_req noParse "get" "/api/v3/klines"
        (RateLimitParam.Weight 1)
        (fun _ => SendOutcome.ok 500 "oops" emptyHeaders)).1 = 1 ∧
    countSleep (rest_req noParse "get" "/api/v3/klines"
        (RateLimitParam.Weight 1)
        (fun _ => SendOutcome.ok 500 "oops" emptyHeaders)).1 = 0 :=
  (rest_req_retries_transport_errors_only noParse "get" "/api/v3/klines"
      (RateLimitParam.Weight 1) RestMethod.Get rfl).1
    (fun _ => SendOutcome.ok 500 "oops" emptyHeaders) 500 "oops" emptyHeaders
    rfl (by omega)

/-- C7 counterexample: a call answered by a 500 on its first attempt returns
`ServerError` with exactly one send attempt and no inter-attempt delay — the
5xx is not retried, refuting "retried a bounded number of times with a fixed
inter-attempt delay before the ServerError is returned". -/
theorem server_error_returned_without_retry :
    rest_req noParse "get" "/api/v3/klines" (RateLimitParam.Weight 1)
        (fun _ => SendOutcome.ok 500 "oops" emptyHeaders) =
      ([RestEvent.acquire (RateLimitParam.Weight 1), RestEvent.send 0,
        RestEvent.reconcile emptyHeaders],
        Except.error (BiAnApiError.ServerError "oops")) ∧
    countSend (rest_req noParse "get" "/api/v3/klines"
        (RateLimitParam.Weight 1)
        (fun _ => SendOutcome.ok 500 "oops" emptyHeaders)).1 = 1 ∧
    countSleep (rest_req noParse "get" "/api/v3/klines"
        (RateLimitParam.Weight 1)
        (fun _ => SendOutcome.ok 500 "oops" emptyHeaders)).1 = 0 :=
  ⟨rfl, rfl, rfl⟩

/-! ### `RestConn::make_url` (src/client/rest.rs:204-241) -/

/-- `CheckType` (src/client/params.rs:28-42); the `Margin` variant is
commented out of the source enum. -/
inductive CheckType
  | None
  | UserStream
  | MarketData
  | Trade
  | UserData
  deriving DecidableEq, Repr

/-- `serde_urlencoded::to_string(params)` on the declared parameter list:
`k=v` pairs joined by `&`, with each key and value already url-encoded. -/
def joinPairs : List (String × String) → String
  | [] => ""
  | [kv] => kv.1 ++ "=" ++ kv.2
  | kv :: rest => kv.1 ++ "=" ++ kv.2 ++ "&" ++ joinPairs rest

/-- The query-string construction of `RestConn::make_url`: `none` when
`url.set_query` is never called, `some q` when it is called with `q`.
`hmacHex` models `helper::signature` (HMAC-SHA256 keyed by `sec_key`,
hex-encoded — a pure function, out of scope per the spec), `timestamp`
models `helper::timestamp()`.  Note `make_url` never reads the API key: the
key is installed once as the `X-MBX-APIKEY` default header in
`RestConn::new` and appears in no query and in no signed payload. -/
def make_url_query (hmacHex : String → String → String) (sec_key : String)
    (check_type : CheckType) (params : List (String × String))
    (timestamp : Nat) : Option String :=
  match check_type with
  | CheckType.None | CheckType.UserStream | CheckType.MarketData =>
      let query := joinPairs params
      if query = "" then none else some query
  | CheckType.Trade | CheckType.UserData =>
      let query := joinPairs params
      let time_query := "recvWindow=5000&timestamp=" ++ toString timestamp
      let query := if query = "" then query ++ time_query
        else query ++ "&" ++ time_query
      let signature := hmacHex sec_key query
      let query := query ++ "&signature=" ++ signature
      some query

theorem strAppend_assoc (a b c : String) : a ++ b ++ c = a ++ (b ++ c) :=
  congrArg String.mk (List.append_assoc a.data b.data c.data)

theorem joinPairs_cons_ne (kv : String × String)
    (rest : List (String × String)) : joinPairs (kv :: rest) ≠ "" := by
  have heq : ("=" : String).length = 1 := rfl
  have hamp : ("&" : String).length = 1 := rfl
  have hlen : 1 ≤ (joinPairs (kv :: rest)).length := by
    cases rest with
    | nil =>
        simp only [joinPairs, String.length_append, heq]
        omega
    | cons b rest' =>
        simp only [joinPairs, String.length_append, heq, hamp]
        omega
  intro h
  rw [h] at hlen
  simp at hlen

theorem joinPairs_cons_cons (kv b : String × String)
    (rest : List (String × String)) :
    joinPairs (kv :: b :: rest) =
      kv.1 ++ "=" ++ kv.2 ++ "&" ++ joinPairs (b :: rest) := rfl

theorem joinPairs_append_ne (kv : String × String)
    (rest l2 : List (String × String)) (h2 : l2 ≠ []) :
    joinPairs ((kv :: rest) ++ l2) =
      joinPairs (kv :: rest) ++ "&" ++ joinPairs l2 := by
  induction rest generalizing kv with
  | nil =>
      cases l2 with
      | nil => exact absurd rfl h2
      | cons a l2' =>
          cases l2' with
          | nil => rfl
          | cons b l2'' => rfl
  | cons b rest' ih =>
      have h1 : joinPairs ((kv :: b :: rest') ++ l2) =
          kv.1 ++ "=" ++ kv.2 ++ "&" ++ joinPairs ((b :: rest') ++ l2) := by
        rw [List.cons_append]
        exact joinPairs_cons_cons kv b (rest' ++ l2)
      rw [h1, ih b, joinPairs_cons_cons kv b rest']
      apply String.ext
      simp [String.data_append, List.append_assoc]

theorem time_query_as_pairs (ts : Nat) :
    joinPairs [("recvWindow", "5000"), ("timestamp", toString ts)] =
      "recvWindow=5000&timestamp=" ++ toString ts := rfl

/-- C8 (amended): for an authenticated request (`Trade`/`UserData` check
type), the transmitted query is the declared `k=v` pairs joined by `&` with
`recvWindow=5000&timestamp=<ms-epoch>` appended — recvWindow first, then
timestamp — the signature is the HMAC of exactly that query string keyed by
the secret key, and `&signature=<hex>` is appended after signing.  The API
key appears nowhere in the construction (`make_url` does not read it; it is
sent only as the `X-MBX-APIKEY` header installed at client build time). -/
theorem make_url_signed_query_shape (hmacHex : String → String → String)
    (sec_key : String) (params : List (String × String)) (ts : Nat) :
    make_url_query hmacHex sec_key CheckType.Trade params ts =
      some (joinPairs
          (params ++ [("recvWindow", "5000"), ("timestamp", toString ts)]) ++
        "&signature=" ++
        hmacHex sec_key (joinPairs
          (params ++ [("recvWindow", "5000"), ("timestamp", toString ts)]))) ∧
    make_url_query hmacHex sec_key CheckType.UserData params ts =
      make_url_query hmacHex sec_key CheckType.Trade params ts := by
  refine ⟨?_, rfl⟩
  cases params with
  | nil => rfl
  | cons kv rest =>
      have hq : joinPairs
          ((kv :: rest) ++ [("recvWindow", "5000"), ("timestamp", toString ts)]) =
          joinPairs (kv :: rest) ++ "&" ++
            ("recvWindow=5000&timestamp=" ++ toString ts) := by
        rw [joinPairs_append_ne kv rest _ (by simp), time_query_as_pairs]
      simp only [make_url_query, if_neg (joinPairs_cons_ne kv rest), hq]

/-- C8 counterexample: with one declared pair `a=1` and timestamp 2, the
query actually built is `a=1&recvWindow=5000&timestamp=2&signature=…` —
`recvWindow` precedes `timestamp`, refuting the claim's
`timestamp=<ms-epoch>&recvWindow=<ms>` order. -/
theorem auth_query_appends_recvwindow_before_timestamp :
    make_url_query (fun _ _ => "SIG") "sk" CheckType.Trade [("a", "1")] 2 =
      some "a=1&recvWindow=5000&timestamp=2&signature=SIG" ∧
    "a=1&recvWindow=5000&timestamp=2&signature=SIG" ≠
      "a=1&timestamp=2&recvWindow=5000&signature=SIG" :=
  ⟨rfl, by decide⟩

/-! ### `src/client/websocket.rs` — the streaming read loop -/

/-- An inbound websocket frame (`tungstenite::Message`); binary payloads are
byte lists, a close frame optionally carries `(code, reason)`. -/
inductive WsMessage
  | text (data : String)
  | binary (data : List Nat)
  | ping (data : List Nat)
  | pong (data : List Nat)
  | close (frame : Option (Nat × String))
  deriving DecidableEq, Repr

/-- `WsClient::handle_msg` (src/client/websocket.rs:411-457).  `decode`
models `serde_json::from_slice::<WsResponse>` (with `α` the decoded event
type).  Result: the events forwarded to `data_sender`, the frames written
back on the socket (the Pong answering a Ping), and `some close_reason` when
the loop must break and rebuild the connection.  A text frame that fails to
decode is only logged (`error!`) and produces `none`: the loop continues.
The logon/subscription flag bookkeeping on a decoded `LogonInfo` response
and the error log on a closed `data_sender` touch no control flow and are
omitted. -/
def handle_msg {α : Type} (decode : String → Option α) (msg : WsMessage) :
    List α × List WsMessage × Option String :=
  match msg with
  | WsMessage.text data =>
      match decode data with
      | some resp => ([resp], [], none)
      | none => ([], [], none)
  | WsMessage.ping d => ([], [WsMessage.pong d], none)
  | WsMessage.binary _ => ([], [], none)
  | WsMessage.pong _ => ([], [], none)
  | WsMessage.close (some frame) => ([], [], some frame.2)
  | WsMessage.close none => ([], [], none)

/-- The inner loop of `WsClient::read_from_channel`
(src/client/websocket.rs:370-407) over the successive results of
`ws_reader.next()`: it accumulates the events delivered to the data channel
and stops with `some err_msg` when `handle_msg` requests a rebuild or the
stream yields an error (`break e.to_string()`).  The `data_sender.is_closed`
early return and the end of the modelled input are both represented by the
end of the list (`none` break reason: the loop is still waiting). -/
def read_loop {α : Type} (decode : String → Option α) :
    List (Except String WsMessage) → List α × Option String
  | [] => ([], none)
  | Except.error e :: _ => ([], some e)
  | Except.ok msg :: rest =>
      let r := handle_msg decode msg
      match r.2.2 with
      | some err_msg => (r.1, some err_msg)
      | none =>
          let rr := read_loop decode rest
          (r.1 ++ rr.1, rr.2)

/-- C9: a text frame that fails to decode never terminates the read loop or
the session: the whole remaining run of the loop — everything delivered to
the application's channel and the way the loop eventually exits — is exactly
as if the malformed frame had never arrived, and in particular the next
valid frame after it is still decoded and delivered. -/
theorem undecodable_frame_skipped {α : Type} (decode : String → Option α)
    (bad : String) (hbad : decode bad = none)
    (msgs : List (Except String WsMessage)) :
    read_loop decode (Except.ok (WsMessage.text bad) :: msgs) =
      read_loop decode msgs ∧
    (∀ good v, decode good = some v →
      (read_loop decode (Except.ok (WsMessage.text bad) ::
          Except.ok (WsMessage.text good) :: msgs)).1 =
        v :: (read_loop decode msgs).1) := by
  constructor
  · simp [read_loop, handle_msg, hbad]
  · intro good v hgood
    simp [read_loop, handle_msg, hbad, hgood]

/-- A concrete decoder for the C9 witness: only the frame `"good"` decodes
(to the event `"ev"`). -/
def c9decode : String → Option String :=
  fun s => if s = "good" then some "ev" else none

/-- Witness for C9: dropping the malformed frame `"bad"` leaves the loop's
behaviour on the rest of the stream unchanged, and the following valid frame
is still delivered. -/
theorem undecodable_frame_skipped_witness :
    read_loop c9decode (Except.ok (WsMessage.text "bad") ::
        [Except.ok (WsMessage.text "good")]) =
      read_loop c9decode [Except.ok (WsMessage.text "good")] ∧
    (read_loop c9decode (Except.ok (WsMessage.text "bad") ::
        Except.ok (WsMessage.text "good") :: [])).1 = ["ev"] :=
  ⟨(undecodable_frame_skipped c9decode "bad" rfl
      [Except.ok (WsMessage.text "good")]).1,
    (undecodable_frame_skipped c9decode "bad" rfl []).2 "good" "ev" rfl⟩

end BaApi
